import Mathlib

/-!
# NativeAppWindowViews

A shallow embedding of `apps/ui/views/native_app_window_views.cc`: the adapter
that binds an application window to a native `views::Widget`.

* The adapter object is a record of its data members, together with three
  recorded effect streams: the commands it issued to its widget, the
  notifications it sent to the owning `AppWindow`, and the
  `OnPositionRequiresUpdate` deliveries it made to dialog-host observers.
* The widget and the window toolkit live outside this file.  What the widget
  reports (visible, active, maximized, ...) is a record `Widget`; how the
  widget reacts to a command is a parameter (`Toolkit`).
* A callback of the widget into the adapter (`OnWidgetActivationChanged`,
  `ViewHierarchyChanged`, ...) is a call of its own, made by the toolkit.
* `#if defined(USE_AURA)` is a parameter `USE_AURA : Bool`.
* A method that dereferences a pointer returns an `Option`: `none` when the
  pointer is NULL.
-/

namespace apps

/-! ## Geometry (`ui/gfx`) -/

/-- Result of a C++ `int` operation, wrapped to 32 bits (two's complement). -/
def wrapInt (z : Int) : Int := (z + 2147483648) % 4294967296 - 2147483648

/-- Value of a `gfx::Size`. -/
structure Size where
  width : Int
  height : Int
deriving DecidableEq, Repr

/-- Value of a `gfx::Point`. -/
structure Point where
  x : Int
  y : Int
deriving DecidableEq, Repr

/-- Value of a `gfx::Insets`. -/
structure Insets where
  top : Int
  left : Int
  bottom : Int
  right : Int
deriving DecidableEq, Repr

/-- Value of a `gfx::Rect`: origin and size. -/
structure Rect where
  x : Int
  y : Int
  width : Int
  height : Int
deriving DecidableEq, Repr

/-- The constructor `gfx::Rect(int width, int height)`: origin at (0, 0). -/
def Rect.ofSize (width height : Int) : Rect := ⟨0, 0, width, height⟩

/-- The accessor `gfx::Rect::size()`. -/
def Rect.size (r : Rect) : Size := ⟨r.width, r.height⟩

/-- The accessor `gfx::Rect::right()`, which is `x() + width()`. -/
def Rect.right (r : Rect) : Int := wrapInt (r.x + r.width)

/-- The accessor `gfx::Rect::bottom()`, which is `y() + height()`. -/
def Rect.bottom (r : Rect) : Int := wrapInt (r.y + r.height)

/-- The test `gfx::Rect::Contains(x, y)`: the rectangle is half-open, its
left and top edges belong to it and its right and bottom edges do not. -/
def Rect.Contains (r : Rect) (px py : Int) : Bool :=
  decide (r.x ≤ px) && decide (px < r.right) && decide (r.y ≤ py) && decide (py < r.bottom)

/-- Modelled from the spec: `gfx::Rect::InsetsFrom` is declared outside src/.
Section 4.9: "subtract the client rectangle from that: the remainder on each
side is the frame's inset".  The receiver is the outer rectangle. -/
def Rect.InsetsFrom (outer inner : Rect) : Insets :=
  { top := wrapInt (inner.y - outer.y)
    left := wrapInt (inner.x - outer.x)
    bottom := wrapInt (outer.bottom - inner.bottom)
    right := wrapInt (outer.right - inner.right) }

/-- The default constructor `gfx::Insets()`: zero on all four sides. -/
def Insets.zero : Insets := ⟨0, 0, 0, 0⟩

/-! ## Regions (Skia) and draggable regions -/

/-- Value of an `SkIRect`: four edges. -/
structure SkIRect where
  left : Int
  top : Int
  right : Int
  bottom : Int
deriving DecidableEq, Repr

/-- Modelled from the spec: `SkRegion` is declared outside src/.  Section 3
describes the draggable region as "a region (set of rectangles)"; here it is
the list of rectangles whose union it is. -/
structure SkRegion where
  rects : List SkIRect
deriving DecidableEq, Repr

/-- Modelled from the spec: `SkRegion::contains(x, y)` is declared outside
src/.  A point is in the region when it is in one of its rectangles
(half-open, like `SkIRect`). -/
def SkRegion.contains (r : SkRegion) (px py : Int) : Bool :=
  r.rects.any fun q =>
    decide (q.left ≤ px) && decide (px < q.right) && decide (q.top ≤ py) && decide (py < q.bottom)

/-- Modelled from the spec: `extensions::DraggableRegion` is declared outside
src/.  Section 4.8 gives the input as "an ordered sequence of rectangles
describing application-defined drag handles". -/
structure DraggableRegion where
  bounds : Rect
deriving DecidableEq, Repr

/-- Modelled from the spec: `AppWindow::RawDraggableRegionsToSkRegion` is not
under src/.  Section 4.8: the stored region is "the union of the given
rectangles"; each rectangle enters by its edges x, y, right, bottom. -/
def RawDraggableRegionsToSkRegion (regions : List DraggableRegion) : SkRegion :=
  ⟨regions.map fun d => ⟨d.bounds.x, d.bounds.y, d.bounds.right, d.bounds.bottom⟩⟩

/-! ## Size constraints -/

/-- Modelled from the spec: the class `SizeConstraints` is not under src/.
Section 3: "Min/max window content size", with key attributes "two optional
sizes", "mutated via explicit setter".  A size that was never set is `none`. -/
structure SizeConstraints where
  minimum_size_ : Option Size
  maximum_size_ : Option Size
deriving DecidableEq, Repr

namespace SizeConstraints

/-- Modelled from the spec: the setter `SizeConstraints::set_minimum_size`,
called with a `gfx::Size` at line 420; the size it is given becomes the
minimum size. -/
def set_minimum_size (c : SizeConstraints) (min_size : Size) : SizeConstraints :=
  { c with minimum_size_ := some min_size }

/-- Modelled from the spec: the setter `SizeConstraints::set_maximum_size`,
called with a `gfx::Size` at line 421; the size it is given becomes the
maximum size. -/
def set_maximum_size (c : SizeConstraints) (max_size : Size) : SizeConstraints :=
  { c with maximum_size_ := some max_size }

/-- Modelled from the spec: `SizeConstraints::HasMaximumSize`.  Section 4.5
has can-maximize require "no maximum-size constraint": there is one when the
optional maximum size is present. -/
def HasMaximumSize (c : SizeConstraints) : Bool := c.maximum_size_.isSome

/-- Modelled from the spec: `SizeConstraints::HasFixedSize`.  Section 4.5 has
can-resize require that the constraints "do not pin a fixed size", and
section 3 calls a fixed size "min == max": a minimum size is present and the
maximum size is the same size. -/
def HasFixedSize (c : SizeConstraints) : Bool :=
  c.minimum_size_.isSome && decide (c.minimum_size_ = c.maximum_size_)

end SizeConstraints

/-! ## The widget and the toolkit (`ui/views`) -/

/-- What the `views::Widget` held in `window_` reports to its queries. -/
structure Widget where
  visible : Bool
  active : Bool
  maximized : Bool
  minimized : Bool
  fullscreen : Bool
  window_bounds_in_screen : Rect
deriving DecidableEq, Repr

/-- Commands the adapter issues to its widget. -/
inductive WidgetCall where
  | Show
  | ShowInactive
  | Hide
  | Activate
  | Deactivate
deriving DecidableEq, Repr

/-- The window toolkit, which is not part of this program: how a widget
reacts to a command, and how its non-client view maps client bounds to
window bounds. -/
structure Toolkit where
  react : WidgetCall → Widget → Widget
  GetWindowBoundsForClientBounds : Widget → Rect → Rect

/-- The values of `ui::WindowShowState`. -/
inductive WindowShowState where
  | SHOW_STATE_DEFAULT
  | SHOW_STATE_NORMAL
  | SHOW_STATE_MINIMIZED
  | SHOW_STATE_MAXIMIZED
  | SHOW_STATE_INACTIVE
  | SHOW_STATE_FULLSCREEN
  | SHOW_STATE_DETACHED
deriving DecidableEq, Repr

/-! ## The owner and the adapter -/

/-- What the owning `AppWindow` reports to the adapter's queries. -/
structure AppWindow where
  window_type_is_panel : Bool
deriving DecidableEq, Repr

/-- Notifications the adapter sends to the owning `AppWindow`. -/
inductive OwnerCall where
  | OnNativeWindowChanged
  | OnNativeWindowActivated
  | OnNativeClose
deriving DecidableEq, Repr

/-- The fields of `AppWindow::CreateParams` that `Init` reads;
`frame_is_none` is the outcome of `create_params.frame == AppWindow::FRAME_NONE`. -/
structure CreateParams where
  frame_is_none : Bool
  transparent_background : Bool
  resizable : Bool
deriving DecidableEq, Repr

/-- A view as named by `ViewHierarchyChangedDetails::child`: the adapter
itself (`this`), or another view, known by the number under which it was
constructed or by a number of its own. -/
inductive ViewRef where
  | self
  | webView (id : Nat)
  | other (id : Nat)
deriving DecidableEq, Repr

/-- The fields of `ViewHierarchyChangedDetails` that the adapter reads. -/
structure ViewHierarchyChangedDetails where
  is_add : Bool
  child : ViewRef
deriving DecidableEq, Repr

/-- A `gfx::NativeView` passed to the hit test, reduced to the one question
the adapter asks of it: whether it contains the native view of the content. -/
structure NativeView where
  contains_web_contents_view : Bool
deriving DecidableEq, Repr

/-- The adapter: its data members, then the effects it has produced so far. -/
structure NativeAppWindowViews where
  app_window_ : AppWindow
  /-- the pointer `web_view_`: `none` is NULL, `some n` the n-th view constructed -/
  web_view_ : Option Nat
  window_ : Widget
  frameless_ : Bool
  transparent_background_ : Bool
  resizable_ : Bool
  size_constraints_ : SizeConstraints
  /-- the `scoped_ptr<SkRegion>`: `none` is the null pointer -/
  draggable_region_ : Option SkRegion
  observer_list_ : List Nat
  /-- how many `views::WebView` objects the adapter has constructed -/
  web_views_constructed : Nat
  /-- child views added with `AddChildView`, oldest first -/
  child_views : List Nat
  /-- views on which `SetWebContents(app_window_->web_contents())` was called -/
  web_contents_set : List Nat
  /-- commands issued to `window_`, oldest first -/
  widget_calls : List WidgetCall
  /-- notifications sent to `app_window_`, oldest first -/
  owner_calls : List OwnerCall
  /-- observers that received `OnPositionRequiresUpdate`, oldest first -/
  observer_calls : List Nat
deriving DecidableEq, Repr

namespace NativeAppWindowViews

/-- Issue one command to `window_`: the toolkit updates the widget, and the
command is recorded. -/
def callWidget (tk : Toolkit) (c : WidgetCall) (s : NativeAppWindowViews) :
    NativeAppWindowViews :=
  { s with window_ := tk.react c s.window_, widget_calls := s.widget_calls ++ [c] }

/-- Send one notification to `app_window_`. -/
def callOwner (c : OwnerCall) (s : NativeAppWindowViews) : NativeAppWindowViews :=
  { s with owner_calls := s.owner_calls ++ [c] }

/-- The method `OnViewWasResized`: every registered observer receives
`OnPositionRequiresUpdate`. -/
def OnViewWasResized (s : NativeAppWindowViews) : NativeAppWindowViews :=
  { s with observer_calls := s.observer_calls ++ s.observer_list_ }

/-- The constructor followed by `Init`, for the widget `widget` that
`new views::Widget` and `InitializeWindow` produce. -/
def Init (app_window : AppWindow) (create_params : CreateParams) (widget : Widget) :
    NativeAppWindowViews :=
  OnViewWasResized
    { app_window_ := app_window
      web_view_ := none
      window_ := widget
      frameless_ := create_params.frame_is_none
      transparent_background_ := create_params.transparent_background
      resizable_ := create_params.resizable
      size_constraints_ := ⟨none, none⟩
      draggable_region_ := none
      observer_list_ := []
      web_views_constructed := 0
      child_views := []
      web_contents_set := []
      widget_calls := []
      owner_calls := []
      observer_calls := [] }

/-- The method `IsActive`. -/
def IsActive (s : NativeAppWindowViews) : Bool := s.window_.active

/-- The method `IsMaximized`. -/
def IsMaximized (s : NativeAppWindowViews) : Bool := s.window_.maximized

/-- The method `IsMinimized`. -/
def IsMinimized (s : NativeAppWindowViews) : Bool := s.window_.minimized

/-- The method `IsFullscreen`. -/
def IsFullscreen (s : NativeAppWindowViews) : Bool := s.window_.fullscreen

/-- The method `GetRestoredState`. -/
def GetRestoredState (s : NativeAppWindowViews) : WindowShowState :=
  if s.IsMaximized then WindowShowState.SHOW_STATE_MAXIMIZED
  else if s.IsFullscreen then WindowShowState.SHOW_STATE_FULLSCREEN
  else WindowShowState.SHOW_STATE_NORMAL

/-- The method `GetBounds`. -/
def GetBounds (s : NativeAppWindowViews) : Rect := s.window_.window_bounds_in_screen

/-- The method `Show`. -/
def Show (tk : Toolkit) (s : NativeAppWindowViews) : NativeAppWindowViews :=
  if s.window_.visible then callWidget tk WidgetCall.Activate s
  else callWidget tk WidgetCall.Show s

/-- The method `ShowInactive`. -/
def ShowInactive (tk : Toolkit) (s : NativeAppWindowViews) : NativeAppWindowViews :=
  if s.window_.visible then s
  else callWidget tk WidgetCall.ShowInactive s

/-- The method `Hide`. -/
def Hide (tk : Toolkit) (s : NativeAppWindowViews) : NativeAppWindowViews :=
  callWidget tk WidgetCall.Hide s

/-- The method `Activate`. -/
def Activate (tk : Toolkit) (s : NativeAppWindowViews) : NativeAppWindowViews :=
  callWidget tk WidgetCall.Activate s

/-- The method `Deactivate`. -/
def Deactivate (tk : Toolkit) (s : NativeAppWindowViews) : NativeAppWindowViews :=
  callWidget tk WidgetCall.Deactivate s

/-- The method `GetDialogPosition`.  C++ `/` on `int` truncates. -/
def GetDialogPosition (s : NativeAppWindowViews) (size : Size) : Point :=
  let app_window_size := s.window_.window_bounds_in_screen.size
  ⟨wrapInt (Int.tdiv app_window_size.width 2 - Int.tdiv size.width 2),
   wrapInt (Int.tdiv app_window_size.height 2 - Int.tdiv size.height 2)⟩

/-- The method `GetMaximumDialogSize`. -/
def GetMaximumDialogSize (s : NativeAppWindowViews) : Size :=
  s.window_.window_bounds_in_screen.size

/-- The method `AddObserver`. -/
def AddObserver (s : NativeAppWindowViews) (observer : Nat) : NativeAppWindowViews :=
  { s with observer_list_ := s.observer_list_ ++ [observer] }

/-- The method `OnWidgetMove`. -/
def OnWidgetMove (s : NativeAppWindowViews) : NativeAppWindowViews :=
  callOwner OwnerCall.OnNativeWindowChanged s

/-- The method `CanResize`. -/
def CanResize (s : NativeAppWindowViews) : Bool :=
  s.resizable_ && !s.size_constraints_.HasFixedSize

/-- The method `CanMaximize`. -/
def CanMaximize (s : NativeAppWindowViews) : Bool :=
  s.resizable_ && !s.size_constraints_.HasMaximumSize && !s.app_window_.window_type_is_panel

/-- The method `ShouldDescendIntoChildForEventHandling`.  The first branch is
compiled only when `USE_AURA` is defined; its condition reads the content's
native view through `web_view_`, so with `web_view_` NULL the call has no
result (`none`). -/
def ShouldDescendIntoChildForEventHandling (USE_AURA : Bool) (s : NativeAppWindowViews)
    (child : NativeView) (location : Point) : Option Bool :=
  if USE_AURA then
    match s.web_view_ with
    | none => none
    | some _ =>
      if child.contains_web_contents_view then
        match s.draggable_region_ with
        | none => some true
        | some region => some (!region.contains location.x location.y)
      else some true
  else some true

/-- The method `OnWidgetVisibilityChanged`. -/
def OnWidgetVisibilityChanged (s : NativeAppWindowViews) (_visible : Bool) :
    NativeAppWindowViews :=
  callOwner OwnerCall.OnNativeWindowChanged s

/-- The method `OnWidgetActivationChanged`. -/
def OnWidgetActivationChanged (s : NativeAppWindowViews) (active : Bool) :
    NativeAppWindowViews :=
  let s1 := callOwner OwnerCall.OnNativeWindowChanged s
  if active then callOwner OwnerCall.OnNativeWindowActivated s1 else s1

/-- The method `ViewHierarchyChanged`: `new views::WebView(NULL)` stored in
`web_view_`, then `AddChildView`, then `SetWebContents`.  The notification
that `AddChildView` raises in turn names the new view as its child, not the
adapter, and fails the test of the first line. -/
def ViewHierarchyChanged (s : NativeAppWindowViews) (details : ViewHierarchyChangedDetails) :
    NativeAppWindowViews :=
  if details.is_add && decide (details.child = ViewRef.self) then
    let v := s.web_views_constructed
    { s with
      web_view_ := some v
      web_views_constructed := v + 1
      child_views := s.child_views ++ [v]
      web_contents_set := s.web_contents_set ++ [v] }
  else s

/-- The method `UpdateDraggableRegions`. -/
def UpdateDraggableRegions (s : NativeAppWindowViews) (regions : List DraggableRegion) :
    NativeAppWindowViews :=
  if !s.frameless_ then s
  else OnViewWasResized { s with draggable_region_ := some (RawDraggableRegionsToSkRegion regions) }

/-- The method `GetDraggableRegion`. -/
def GetDraggableRegion (s : NativeAppWindowViews) : Option SkRegion := s.draggable_region_

/-- The method `IsFrameless`. -/
def IsFrameless (s : NativeAppWindowViews) : Bool := s.frameless_

/-- The method `GetFrameInsets`. -/
def GetFrameInsets (tk : Toolkit) (s : NativeAppWindowViews) : Insets :=
  if s.frameless_ then Insets.zero
  else
    let client_bounds := Rect.ofSize 1000 1000
    let window_bounds := tk.GetWindowBoundsForClientBounds s.window_ client_bounds
    window_bounds.InsetsFrom client_bounds

/-- The method `SetContentSizeConstraints`. -/
def SetContentSizeConstraints (s : NativeAppWindowViews) (min_size max_size : Size) :
    NativeAppWindowViews :=
  { s with
    size_constraints_ :=
      (s.size_constraints_.set_minimum_size min_size).set_maximum_size max_size }

/-- Whether a callback reports the adapter itself being added: the test
`details.is_add && details.child == this` of `ViewHierarchyChanged`. -/
def reportsOwnAdd (details : ViewHierarchyChangedDetails) : Bool :=
  details.is_add && decide (details.child = ViewRef.self)

/-- A sequence of `ViewHierarchyChanged` callbacks delivered in order. -/
def deliver (s : NativeAppWindowViews) (callbacks : List ViewHierarchyChangedDetails) :
    NativeAppWindowViews :=
  callbacks.foldl ViewHierarchyChanged s

end NativeAppWindowViews

/-- Calls made on the adapter after `Init`, by its owner or by the toolkit. -/
inductive Call where
  | Show
  | ShowInactive
  | Hide
  | Activate
  | Deactivate
  | AddObserver (observer : Nat)
  | OnViewWasResized
  | OnWidgetMove
  | OnWidgetVisibilityChanged (visible : Bool)
  | OnWidgetActivationChanged (active : Bool)
  | ViewHierarchyChanged (details : ViewHierarchyChangedDetails)
  | UpdateDraggableRegions (regions : List DraggableRegion)
  | SetContentSizeConstraints (min_size max_size : Size)
deriving DecidableEq, Repr

/-- The state after one call. -/
def perform (tk : Toolkit) (s : NativeAppWindowViews) : Call → NativeAppWindowViews
  | Call.Show => s.Show tk
  | Call.ShowInactive => s.ShowInactive tk
  | Call.Hide => s.Hide tk
  | Call.Activate => s.Activate tk
  | Call.Deactivate => s.Deactivate tk
  | Call.AddObserver observer => s.AddObserver observer
  | Call.OnViewWasResized => s.OnViewWasResized
  | Call.OnWidgetMove => s.OnWidgetMove
  | Call.OnWidgetVisibilityChanged visible => s.OnWidgetVisibilityChanged visible
  | Call.OnWidgetActivationChanged active => s.OnWidgetActivationChanged active
  | Call.ViewHierarchyChanged details => s.ViewHierarchyChanged details
  | Call.UpdateDraggableRegions regions => s.UpdateDraggableRegions regions
  | Call.SetContentSizeConstraints min_size max_size =>
    s.SetContentSizeConstraints min_size max_size

/-- The state after a sequence of calls, made in order. -/
def performAll (tk : Toolkit) (s : NativeAppWindowViews) (calls : List Call) :
    NativeAppWindowViews :=
  calls.foldl (perform tk) s

/-! ## Concrete inputs -/

/-- A toolkit with the usual widget reactions: `Show` shows and activates,
`ShowInactive` shows, `Hide` hides and deactivates, `Activate` and
`Deactivate` set the activation; its window frame is 8 pixels thick on each
side. -/
def plainToolkit : Toolkit where
  react
    | WidgetCall.Show, w => { w with visible := true, active := true }
    | WidgetCall.ShowInactive, w => { w with visible := true }
    | WidgetCall.Hide, w => { w with visible := false, active := false }
    | WidgetCall.Activate, w => { w with active := true }
    | WidgetCall.Deactivate, w => { w with active := false }
  GetWindowBoundsForClientBounds _ c := ⟨c.x - 8, c.y - 8, c.width + 2 * 8, c.height + 2 * 8⟩

/-- A toolkit whose `Show` makes the widget visible and does no more, and
whose other commands leave the widget as it is. -/
def lazyToolkit : Toolkit where
  react
    | WidgetCall.Show, w => { w with visible := true }
    | _, w => w
  GetWindowBoundsForClientBounds _ c := c

/-- A toolkit whose `Show` shows and activates the widget, and whose
`Activate` activates it and takes it off the screen. -/
def hidingToolkit : Toolkit where
  react
    | WidgetCall.Show, w => { w with visible := true, active := true }
    | WidgetCall.Activate, w => { w with visible := false, active := true }
    | _, w => w
  GetWindowBoundsForClientBounds _ c := c

/-- A widget just created: hidden, inactive, 800 by 600 at (100, 50). -/
def hiddenWidget : Widget :=
  { visible := false, active := false, maximized := false, minimized := false,
    fullscreen := false, window_bounds_in_screen := ⟨100, 50, 800, 600⟩ }

/-- The same widget once shown without activation. -/
def shownWidget : Widget := { hiddenWidget with visible := true }

/-- A framed, resizable window of a non-panel type, after `Init`. -/
def framedWindow : NativeAppWindowViews :=
  NativeAppWindowViews.Init ⟨false⟩ ⟨false, false, true⟩ hiddenWidget

/-- A frameless, resizable window of a non-panel type, after `Init`. -/
def framelessWindow : NativeAppWindowViews :=
  NativeAppWindowViews.Init ⟨false⟩ ⟨true, false, true⟩ hiddenWidget

/-- A framed window whose widget is already visible. -/
def visibleWindow : NativeAppWindowViews :=
  NativeAppWindowViews.Init ⟨false⟩ ⟨false, false, true⟩ shownWidget

/-- The framed window with one dialog-host observer, once the toolkit has
attached the adapter and the content view exists. -/
def attachedFramedWindow : NativeAppWindowViews :=
  (framedWindow.AddObserver 7).ViewHierarchyChanged ⟨true, ViewRef.self⟩

/-- The frameless window once the toolkit has attached the adapter and the
content view exists. -/
def attachedFramelessWindow : NativeAppWindowViews :=
  framelessWindow.ViewHierarchyChanged ⟨true, ViewRef.self⟩

end apps

namespace apps

open NativeAppWindowViews

/-! ## Size constraints and the resize policy (C1) -/

/-- With a minimum and a maximum size that differ, `CanResize()` is the
resizable flag: it is the equality of the two sizes that disables resizing. -/
theorem CanResize_of_distinct_sizes (s : NativeAppWindowViews) (min_size max_size : Size)
    (h : min_size ≠ max_size) :
    (s.SetContentSizeConstraints min_size max_size).CanResize = s.resizable_ := by
  simp [SetContentSizeConstraints, CanResize, SizeConstraints.set_minimum_size,
    SizeConstraints.set_maximum_size, SizeConstraints.HasFixedSize, h]

/-- C1: for every adapter state and every pair of sizes with min == max, after
`SetContentSizeConstraints(min, max)` both `CanResize()` and `CanMaximize()`
return false, whatever the resizable flag and the window type. -/
theorem C1_equal_sizes_disable_resize_and_maximize (s : NativeAppWindowViews)
    (min_size max_size : Size) (h : min_size = max_size) :
    (s.SetContentSizeConstraints min_size max_size).CanResize = false ∧
    (s.SetContentSizeConstraints min_size max_size).CanMaximize = false := by
  subst h
  simp [SetContentSizeConstraints, CanResize, CanMaximize, SizeConstraints.set_minimum_size,
    SizeConstraints.set_maximum_size, SizeConstraints.HasFixedSize,
    SizeConstraints.HasMaximumSize]

/-- C1 at a concrete input: a resizable window of a non-panel type pinned to
400 by 300. -/
theorem C1_equal_sizes_disable_resize_and_maximize_witness :
    framedWindow.resizable_ = true ∧
    framedWindow.CanResize = true ∧
    (framedWindow.SetContentSizeConstraints ⟨400, 300⟩ ⟨400, 300⟩).CanResize = false ∧
    (framedWindow.SetContentSizeConstraints ⟨400, 300⟩ ⟨400, 300⟩).CanMaximize = false :=
  have h := C1_equal_sizes_disable_resize_and_maximize framedWindow ⟨400, 300⟩ ⟨400, 300⟩ rfl
  ⟨rfl, by decide, h.1, h.2⟩

/-! ## Show and ShowInactive (C2, C3) -/

/-- C2, as stated, fails when the widget's Show command makes it visible and
no more is known of the toolkit.  Under `lazyToolkit` two calls of `Show()` on
a hidden, inactive widget leave it inactive; under `hidingToolkit` two calls
on a visible widget issue Activate and then Show, so the second call does not
find the widget visible. -/
theorem C2_show_twice_needs_activate_contract :
    (∀ w, (lazyToolkit.react WidgetCall.Show w).visible = true) ∧
    ((framedWindow.Show lazyToolkit).Show lazyToolkit).window_.active = false ∧
    (∀ w, (hidingToolkit.react WidgetCall.Show w).visible = true) ∧
    ((visibleWindow.Show hidingToolkit).Show hidingToolkit).widget_calls
      = [WidgetCall.Activate, WidgetCall.Show] :=
  ⟨fun _ => rfl, by decide, fun _ => rfl, by decide⟩

/-- C2, amended: with a widget whose Show command makes it visible and whose
Activate command leaves a visible widget visible and makes it active, two
calls of `Show()` in a row issue at most one widget Show: the first call
issues Show when the widget was not visible and Activate when it was, after it
the widget is visible, the second call issues Activate, and afterwards the
widget is visible and active. -/
theorem C2_show_twice_issues_one_show (tk : Toolkit) (s : NativeAppWindowViews)
    (hShow : ∀ w, (tk.react WidgetCall.Show w).visible = true)
    (hActivate : ∀ w, w.visible = true →
      (tk.react WidgetCall.Activate w).visible = true ∧
      (tk.react WidgetCall.Activate w).active = true) :
    (s.Show tk).widget_calls
      = s.widget_calls ++ [if s.window_.visible then WidgetCall.Activate else WidgetCall.Show] ∧
    (s.Show tk).window_.visible = true ∧
    ((s.Show tk).Show tk).widget_calls = (s.Show tk).widget_calls ++ [WidgetCall.Activate] ∧
    ((((s.Show tk).Show tk).widget_calls.drop s.widget_calls.length).count WidgetCall.Show ≤ 1) ∧
    ((s.Show tk).Show tk).window_.visible = true ∧
    ((s.Show tk).Show tk).window_.active = true := by
  have h1 : (s.Show tk).window_.visible = true := by
    unfold Show
    by_cases hv : s.window_.visible = true
    · simp [hv, callWidget, (hActivate s.window_ hv).1]
    · simp [hv, callWidget, hShow]
  have hc1 : (s.Show tk).widget_calls
      = s.widget_calls ++ [if s.window_.visible then WidgetCall.Activate else WidgetCall.Show] := by
    unfold Show
    by_cases hv : s.window_.visible = true <;> simp [hv, callWidget]
  have h2 : (s.Show tk).Show tk = callWidget tk WidgetCall.Activate (s.Show tk) := by
    generalize s.Show tk = s1 at h1
    simp [Show, h1]
  have hc2 : ((s.Show tk).Show tk).widget_calls
      = (s.Show tk).widget_calls ++ [WidgetCall.Activate] := by
    rw [h2]; rfl
  refine ⟨hc1, h1, hc2, ?_, ?_, ?_⟩
  · rw [hc2, hc1, List.append_assoc, List.drop_left]
    by_cases hv : s.window_.visible = true <;> simp [hv]
  · rw [h2]; exact (hActivate _ h1).1
  · rw [h2]; exact (hActivate _ h1).2

/-- C2 at a concrete input: a hidden, inactive widget under `plainToolkit`. -/
theorem C2_show_twice_issues_one_show_witness :
    ((framedWindow.Show plainToolkit).Show plainToolkit).widget_calls
      = [WidgetCall.Show, WidgetCall.Activate] ∧
    ((framedWindow.Show plainToolkit).Show plainToolkit).window_.visible = true ∧
    ((framedWindow.Show plainToolkit).Show plainToolkit).window_.active = true := by
  have h := C2_show_twice_issues_one_show plainToolkit framedWindow
    (fun _ => rfl) (fun _ hv => ⟨hv, rfl⟩)
  exact ⟨by decide, h.2.2.2.2.1, h.2.2.2.2.2⟩

/-- C3: `ShowInactive()` on a widget that is already visible returns the
state it was given, every field and every recorded effect included, so it
issues no widget command; on a widget that is not visible it issues exactly
one command, widget ShowInactive. -/
theorem C3_show_inactive_visible_is_noop (tk : Toolkit) (s : NativeAppWindowViews) :
    (s.window_.visible = true → s.ShowInactive tk = s) ∧
    (s.window_.visible = false →
      (s.ShowInactive tk).widget_calls = s.widget_calls ++ [WidgetCall.ShowInactive]) := by
  constructor
  · intro hv
    simp [ShowInactive, hv]
  · intro hv
    simp [ShowInactive, hv, callWidget]

/-- C3 at concrete inputs: a visible widget and a hidden one. -/
theorem C3_show_inactive_visible_is_noop_witness :
    visibleWindow.ShowInactive plainToolkit = visibleWindow ∧
    (framedWindow.ShowInactive plainToolkit).widget_calls = [WidgetCall.ShowInactive] :=
  ⟨(C3_show_inactive_visible_is_noop plainToolkit visibleWindow).1 rfl,
   (C3_show_inactive_visible_is_noop plainToolkit framedWindow).2 rfl⟩

/-! ## Activation callback (C4) -/

/-- C4: `OnWidgetActivationChanged` with active = true sends the owner
exactly `OnNativeWindowChanged` then `OnNativeWindowActivated`; with
active = false it sends exactly `OnNativeWindowChanged`; either way nothing
else in the state changes. -/
theorem C4_activation_changed_notifications (s : NativeAppWindowViews) :
    (s.OnWidgetActivationChanged true).owner_calls
      = s.owner_calls ++ [OwnerCall.OnNativeWindowChanged, OwnerCall.OnNativeWindowActivated] ∧
    (s.OnWidgetActivationChanged false).owner_calls
      = s.owner_calls ++ [OwnerCall.OnNativeWindowChanged] ∧
    ∀ active, { s.OnWidgetActivationChanged active with owner_calls := s.owner_calls } = s := by
  refine ⟨by simp [OnWidgetActivationChanged, callOwner],
    by simp [OnWidgetActivationChanged, callOwner], ?_⟩
  intro active
  cases active <;> simp [OnWidgetActivationChanged, callOwner]

/-! ## Restored state (C8) -/

/-- C8: `GetRestoredState()` is maximized when the widget reports maximized
(whatever it reports for fullscreen), else fullscreen when the widget reports
fullscreen, else normal, and never another show state; being a function of
the state alone, it changes nothing. -/
theorem C8_restored_state (s : NativeAppWindowViews) :
    s.GetRestoredState
      = (match s.window_.maximized, s.window_.fullscreen with
         | true, _ => WindowShowState.SHOW_STATE_MAXIMIZED
         | false, true => WindowShowState.SHOW_STATE_FULLSCREEN
         | false, false => WindowShowState.SHOW_STATE_NORMAL) ∧
    s.GetRestoredState ∈ [WindowShowState.SHOW_STATE_MAXIMIZED,
      WindowShowState.SHOW_STATE_FULLSCREEN, WindowShowState.SHOW_STATE_NORMAL] := by
  unfold GetRestoredState IsMaximized IsFullscreen
  cases s.window_.maximized <;> cases s.window_.fullscreen <;> simp

/-! ## Draggable regions and the hit test (C5, C6) -/

/-- The region built from a list of rectangles contains a point exactly when
one of the listed rectangles does. -/
theorem contains_RawDraggableRegionsToSkRegion (regions : List DraggableRegion) (px py : Int) :
    (RawDraggableRegionsToSkRegion regions).contains px py
      = regions.any fun d => d.bounds.Contains px py := by
  induction regions with
  | nil => rfl
  | cons d rest ih =>
    simp only [RawDraggableRegionsToSkRegion, SkRegion.contains, List.map_cons, List.any_cons,
      Rect.Contains] at ih ⊢
    rw [ih]

/-- One call leaves the frame style as it is, and leaves the draggable region
of a framed window unset. -/
theorem perform_keeps_framed_region_unset (tk : Toolkit) (s : NativeAppWindowViews) (c : Call)
    (hframed : s.frameless_ = false) (hunset : s.draggable_region_ = none) :
    (perform tk s c).frameless_ = false ∧ (perform tk s c).draggable_region_ = none := by
  cases c <;>
    simp [perform, Show, ShowInactive, Hide, Activate, Deactivate, callWidget, AddObserver,
      OnViewWasResized, OnWidgetMove, OnWidgetVisibilityChanged, OnWidgetActivationChanged,
      callOwner, ViewHierarchyChanged, UpdateDraggableRegions, SetContentSizeConstraints,
      hframed, hunset] <;>
    split <;> simp [hframed, hunset]

/-- After `Init` of a framed window and any sequence of calls, the window is
still framed and its draggable region is still unset. -/
theorem framed_window_region_stays_unset (tk : Toolkit) (app_window : AppWindow)
    (create_params : CreateParams) (widget : Widget) (calls : List Call)
    (hframed : create_params.frame_is_none = false) :
    (performAll tk (Init app_window create_params widget) calls).frameless_ = false ∧
    (performAll tk (Init app_window create_params widget) calls).draggable_region_ = none := by
  have key : ∀ (calls : List Call) (s : NativeAppWindowViews), s.frameless_ = false →
      s.draggable_region_ = none →
      (performAll tk s calls).frameless_ = false ∧
      (performAll tk s calls).draggable_region_ = none := by
    intro calls
    induction calls with
    | nil => intro s h1 h2; exact ⟨h1, h2⟩
    | cons c rest ih =>
      intro s h1 h2
      have h := perform_keeps_framed_region_unset tk s c h1 h2
      exact ih (perform tk s c) h.1 h.2
  exact key calls _ (by simp [Init, OnViewWasResized, hframed]) (by simp [Init, OnViewWasResized])

/-- C5, as stated, fails twice.  In a build without `USE_AURA`, on a
frameless window with its content view and the one draggable rectangle
(0, 0, 10, 10), the hit test at (5, 5), inside that rectangle, on a child
containing the content view returns true.  In a build with `USE_AURA`, on a
frameless window whose content view is not constructed yet, the hit test has
no result. -/
theorem C5_hit_test_passes_through_without_aura :
    (Rect.mk 0 0 10 10).Contains 5 5 = true ∧
    attachedFramelessWindow.frameless_ = true ∧
    ShouldDescendIntoChildForEventHandling false
      (attachedFramelessWindow.UpdateDraggableRegions [⟨⟨0, 0, 10, 10⟩⟩]) ⟨true⟩ ⟨5, 5⟩
      = some true ∧
    framelessWindow.frameless_ = true ∧
    ShouldDescendIntoChildForEventHandling true
      (framelessWindow.UpdateDraggableRegions [⟨⟨0, 0, 10, 10⟩⟩]) ⟨true⟩ ⟨5, 5⟩ = none := by
  decide

/-- C5, amended: in a build with `USE_AURA`, for every frameless window whose
content view has been constructed, every list of rectangles passed to
`UpdateDraggableRegions` and every point, the hit test on a child containing
the content view returns false when the point lies inside a listed rectangle
and true when it lies outside all of them; for a child that does not contain
the content view it returns true; in a build without `USE_AURA` it returns
true for every child. -/
theorem C5_hit_test_follows_draggable_regions (s : NativeAppWindowViews)
    (hframeless : s.frameless_ = true) (hview : s.web_view_.isSome = true)
    (regions : List DraggableRegion) (child : NativeView) (location : Point) :
    (child.contains_web_contents_view = true →
      ((∃ d ∈ regions, d.bounds.Contains location.x location.y = true) →
        ShouldDescendIntoChildForEventHandling true (s.UpdateDraggableRegions regions)
          child location = some false) ∧
      ((∀ d ∈ regions, d.bounds.Contains location.x location.y = false) →
        ShouldDescendIntoChildForEventHandling true (s.UpdateDraggableRegions regions)
          child location = some true)) ∧
    (child.contains_web_contents_view = false →
      ShouldDescendIntoChildForEventHandling true (s.UpdateDraggableRegions regions)
        child location = some true) ∧
    ShouldDescendIntoChildForEventHandling false (s.UpdateDraggableRegions regions)
      child location = some true := by
  obtain ⟨v, hv⟩ := Option.isSome_iff_exists.mp hview
  have hs : (s.UpdateDraggableRegions regions).web_view_ = some v := by
    simp [UpdateDraggableRegions, hframeless, OnViewWasResized, hv]
  have hr : (s.UpdateDraggableRegions regions).draggable_region_
      = some (RawDraggableRegionsToSkRegion regions) := by
    simp [UpdateDraggableRegions, hframeless, OnViewWasResized]
  refine ⟨?_, ?_, ?_⟩
  · intro hc
    constructor
    · intro hin
      have hany : (regions.any fun d => d.bounds.Contains location.x location.y) = true :=
        List.any_eq_true.mpr hin
      simp [ShouldDescendIntoChildForEventHandling, hs, hr, hc,
        contains_RawDraggableRegionsToSkRegion, hany]
    · intro hout
      have hany : (regions.any fun d => d.bounds.Contains location.x location.y) = false := by
        rw [List.any_eq_false]
        intro d hd
        simp [hout d hd]
      simp [ShouldDescendIntoChildForEventHandling, hs, hr, hc,
        contains_RawDraggableRegionsToSkRegion, hany]
  · intro hc
    simp [ShouldDescendIntoChildForEventHandling, hs, hc]
  · simp [ShouldDescendIntoChildForEventHandling]

/-- C5 at concrete inputs: a point inside the second of two rectangles, and a
point outside both. -/
theorem C5_hit_test_follows_draggable_regions_witness :
    ShouldDescendIntoChildForEventHandling true
      (attachedFramelessWindow.UpdateDraggableRegions [⟨⟨0, 0, 10, 10⟩⟩, ⟨⟨20, 0, 10, 10⟩⟩])
      ⟨true⟩ ⟨25, 5⟩ = some false ∧
    ShouldDescendIntoChildForEventHandling true
      (attachedFramelessWindow.UpdateDraggableRegions [⟨⟨0, 0, 10, 10⟩⟩, ⟨⟨20, 0, 10, 10⟩⟩])
      ⟨true⟩ ⟨15, 5⟩ = some true :=
  ⟨((C5_hit_test_follows_draggable_regions attachedFramelessWindow rfl rfl
      [⟨⟨0, 0, 10, 10⟩⟩, ⟨⟨20, 0, 10, 10⟩⟩] ⟨true⟩ ⟨25, 5⟩).1 rfl).1
      ⟨⟨⟨20, 0, 10, 10⟩⟩, by decide, by decide⟩,
   ((C5_hit_test_follows_draggable_regions attachedFramelessWindow rfl rfl
      [⟨⟨0, 0, 10, 10⟩⟩, ⟨⟨20, 0, 10, 10⟩⟩] ⟨true⟩ ⟨15, 5⟩).1 rfl).2
      (by decide)⟩

/-- C6, as stated, fails in a build with `USE_AURA` on a framed window whose
content view is not constructed yet: after `UpdateDraggableRegions` the hit
test has no result, where the claim has it return true. -/
theorem C6_hit_test_needs_content_view :
    framedWindow.frameless_ = false ∧
    framedWindow.draggable_region_ = none ∧
    framedWindow.web_view_ = none ∧
    ShouldDescendIntoChildForEventHandling true
      (framedWindow.UpdateDraggableRegions [⟨⟨0, 0, 10, 10⟩⟩]) ⟨true⟩ ⟨5, 5⟩ = none := by
  decide

/-- C6, amended: on a framed window `UpdateDraggableRegions` returns the state
it was given, so no observer is notified and the stored region is what it
was; with the region unset, as it is after `Init`, it stays unset, and
afterwards the hit test returns true for every child and every point in a
build without `USE_AURA`, and in a build with `USE_AURA` once the content view
has been constructed. -/
theorem C6_framed_window_ignores_draggable_regions (s : NativeAppWindowViews)
    (hframed : s.frameless_ = false) (hunset : s.draggable_region_ = none)
    (regions : List DraggableRegion) :
    s.UpdateDraggableRegions regions = s ∧
    (s.UpdateDraggableRegions regions).observer_calls = s.observer_calls ∧
    (s.UpdateDraggableRegions regions).draggable_region_ = none ∧
    (∀ (child : NativeView) (location : Point),
      ShouldDescendIntoChildForEventHandling false (s.UpdateDraggableRegions regions)
        child location = some true) ∧
    (s.web_view_.isSome = true → ∀ (child : NativeView) (location : Point),
      ShouldDescendIntoChildForEventHandling true (s.UpdateDraggableRegions regions)
        child location = some true) := by
  have h : s.UpdateDraggableRegions regions = s := by
    simp [UpdateDraggableRegions, hframed]
  rw [h]
  refine ⟨rfl, rfl, hunset, ?_, ?_⟩
  · intro child location
    simp [ShouldDescendIntoChildForEventHandling]
  · intro hview child location
    obtain ⟨v, hv⟩ := Option.isSome_iff_exists.mp hview
    simp [ShouldDescendIntoChildForEventHandling, hv, hunset]

/-- C6 at a concrete input: a framed window with one observer and its content
view, in a build with `USE_AURA`. -/
theorem C6_framed_window_ignores_draggable_regions_witness :
    attachedFramedWindow.UpdateDraggableRegions [⟨⟨0, 0, 10, 10⟩⟩] = attachedFramedWindow ∧
    ShouldDescendIntoChildForEventHandling true
      (attachedFramedWindow.UpdateDraggableRegions [⟨⟨0, 0, 10, 10⟩⟩])
      ⟨true⟩ ⟨5, 5⟩ = some true :=
  have h := C6_framed_window_ignores_draggable_regions attachedFramedWindow rfl rfl
    [⟨⟨0, 0, 10, 10⟩⟩]
  ⟨h.1, h.2.2.2.2 rfl ⟨true⟩ ⟨5, 5⟩⟩

/-! ## Frame insets (C7) -/

/-- C7: on a framed window whose toolkit grows a client rectangle by a chrome
thickness T >= 0 on each of the four sides (T small enough for the grown
1000x1000 probe to have `int` extents), `GetFrameInsets()` returns T on top,
left, bottom and right. -/
theorem C7_frame_insets_round_trip (tk : Toolkit) (s : NativeAppWindowViews) (T : Int)
    (hframed : s.frameless_ = false) (hT : 0 ≤ T) (hfit : 1000 + 2 * T ≤ 2147483647)
    (hgrow : ∀ c : Rect, tk.GetWindowBoundsForClientBounds s.window_ c
      = ⟨c.x - T, c.y - T, c.width + 2 * T, c.height + 2 * T⟩) :
    s.GetFrameInsets tk = ⟨T, T, T, T⟩ := by
  simp only [GetFrameInsets, hframed, hgrow, Rect.InsetsFrom, Rect.ofSize, Rect.right,
    Rect.bottom, wrapInt, Bool.false_eq_true, if_false]
  have e1 : (0 - (0 - T) + 2147483648) % 4294967296 - 2147483648 = T := by omega
  have e2 : (0 - T + (1000 + 2 * T) + 2147483648) % 4294967296 - 2147483648 = 1000 + T := by
    omega
  have e3 : ((0 : Int) + 1000 + 2147483648) % 4294967296 - 2147483648 = 1000 := by omega
  have e4 : (1000 + T - 1000 + 2147483648) % 4294967296 - 2147483648 = T := by omega
  rw [e1, e2, e3, e4]

/-- C7 at a concrete input: `plainToolkit`, whose frame is 8 pixels thick. -/
theorem C7_frame_insets_round_trip_witness :
    framedWindow.GetFrameInsets plainToolkit = ⟨8, 8, 8, 8⟩ :=
  C7_frame_insets_round_trip plainToolkit framedWindow 8 rfl (by decide) (by decide)
    (fun _ => rfl)

/-! ## Construction of the content view (C9) -/

/-- C9, as stated, fails: a second callback reporting the adapter itself
being added constructs a second content view and replaces the stored one. -/
theorem C9_second_own_add_constructs_again :
    (framedWindow.deliver [⟨true, ViewRef.self⟩]).web_view_ = some 0 ∧
    (framedWindow.deliver [⟨true, ViewRef.self⟩]).web_views_constructed = 1 ∧
    (framedWindow.deliver [⟨true, ViewRef.self⟩, ⟨true, ViewRef.self⟩]).web_view_ = some 1 ∧
    (framedWindow.deliver [⟨true, ViewRef.self⟩, ⟨true, ViewRef.self⟩]).web_views_constructed
      = 2 := by
  decide

/-- One callback: it constructs a view exactly when it reports the adapter
itself being added, and then stores the new view. -/
theorem ViewHierarchyChanged_effect (s : NativeAppWindowViews)
    (d : ViewHierarchyChangedDetails) :
    (s.ViewHierarchyChanged d).web_views_constructed
      = s.web_views_constructed + (if reportsOwnAdd d = true then 1 else 0) ∧
    (s.ViewHierarchyChanged d).web_view_
      = (if reportsOwnAdd d = true then some s.web_views_constructed else s.web_view_) := by
  unfold ViewHierarchyChanged reportsOwnAdd
  split <;> simp_all

/-- C9, amended: for every sequence of `ViewHierarchyChanged` callbacks, one
content view is constructed on each callback that reports the adapter itself
being added, exactly one when the sequence holds exactly one such callback,
and the view stored afterwards is the last one constructed; a callback that
reports a removal or another view changes nothing, so it neither constructs a
content view nor replaces the stored one. -/
theorem C9_content_view_constructed_per_own_add (s : NativeAppWindowViews)
    (callbacks : List ViewHierarchyChangedDetails) :
    (s.deliver callbacks).web_views_constructed
      = s.web_views_constructed + callbacks.countP reportsOwnAdd ∧
    (s.deliver callbacks).web_view_
      = (if callbacks.countP reportsOwnAdd = 0 then s.web_view_
         else some (s.web_views_constructed + callbacks.countP reportsOwnAdd - 1)) ∧
    ∀ d, reportsOwnAdd d = false → s.ViewHierarchyChanged d = s := by
  refine ⟨?_, ?_, ?_⟩
  · induction callbacks generalizing s with
    | nil => simp [deliver]
    | cons d rest ih =>
      have h := ih (s.ViewHierarchyChanged d)
      simp only [deliver, List.foldl_cons] at h ⊢
      rw [h, (ViewHierarchyChanged_effect s d).1, List.countP_cons]
      omega
  · induction callbacks generalizing s with
    | nil => simp [deliver]
    | cons d rest ih =>
      have h := ih (s.ViewHierarchyChanged d)
      simp only [deliver, List.foldl_cons] at h ⊢
      rw [h, (ViewHierarchyChanged_effect s d).1, (ViewHierarchyChanged_effect s d).2,
        List.countP_cons]
      by_cases hd : reportsOwnAdd d = true
      · by_cases hr : List.countP reportsOwnAdd rest = 0
        · simp [hd, hr]
        · simp only [hd, hr, if_true, if_false]
          rw [if_neg (by omega)]
          congr 1
          omega
      · simp [hd]
  · intro d hd
    unfold reportsOwnAdd at hd
    simp [ViewHierarchyChanged, hd]

/-- C9 at a concrete input: an add of another view, then the adapter's own
add, then a removal. -/
theorem C9_content_view_constructed_per_own_add_witness :
    (framedWindow.deliver
      [⟨true, ViewRef.other 3⟩, ⟨true, ViewRef.self⟩, ⟨false, ViewRef.self⟩]).web_views_constructed
      = 1 ∧
    framedWindow.ViewHierarchyChanged ⟨false, ViewRef.self⟩ = framedWindow :=
  ⟨(C9_content_view_constructed_per_own_add framedWindow
      [⟨true, ViewRef.other 3⟩, ⟨true, ViewRef.self⟩, ⟨false, ViewRef.self⟩]).1,
   (C9_content_view_constructed_per_own_add framedWindow []).2.2 ⟨false, ViewRef.self⟩ rfl⟩

/-! ## Dialog placement (C10) -/

/-- C10: for a window size (W, H) and a dialog size (w, h) whose components
are non-negative `int` values, `GetDialogPosition` returns
(W/2 - w/2, H/2 - h/2) with truncating division, and the left and right
margins x and W - w - x differ by at most 1, as do the top and bottom margins
y and H - h - y. -/
theorem C10_dialog_position_centres (s : NativeAppWindowViews) (size : Size)
    (hW : 0 ≤ s.window_.window_bounds_in_screen.width)
    (hW2 : s.window_.window_bounds_in_screen.width ≤ 2147483647)
    (hH : 0 ≤ s.window_.window_bounds_in_screen.height)
    (hH2 : s.window_.window_bounds_in_screen.height ≤ 2147483647)
    (hw : 0 ≤ size.width) (hw2 : size.width ≤ 2147483647)
    (hh : 0 ≤ size.height) (hh2 : size.height ≤ 2147483647) :
    s.GetDialogPosition size
      = ⟨Int.tdiv s.window_.window_bounds_in_screen.width 2 - Int.tdiv size.width 2,
         Int.tdiv s.window_.window_bounds_in_screen.height 2 - Int.tdiv size.height 2⟩ ∧
    |(s.window_.window_bounds_in_screen.width - size.width - (s.GetDialogPosition size).x)
        - (s.GetDialogPosition size).x| ≤ 1 ∧
    |(s.window_.window_bounds_in_screen.height - size.height - (s.GetDialogPosition size).y)
        - (s.GetDialogPosition size).y| ≤ 1 := by
  have two : (0 : Int) ≤ 2 := by decide
  simp only [GetDialogPosition, Rect.size, wrapInt, Int.tdiv_eq_ediv hW two,
    Int.tdiv_eq_ediv hH two, Int.tdiv_eq_ediv hw two, Int.tdiv_eq_ediv hh two]
  generalize s.window_.window_bounds_in_screen.width = W at *
  generalize s.window_.window_bounds_in_screen.height = H at *
  obtain ⟨w, h⟩ := size
  simp only at hw hw2 hh hh2 ⊢
  have ex : (W / 2 - w / 2 + 2147483648) % 4294967296 - 2147483648 = W / 2 - w / 2 := by omega
  have ey : (H / 2 - h / 2 + 2147483648) % 4294967296 - 2147483648 = H / 2 - h / 2 := by omega
  rw [ex, ey]
  refine ⟨rfl, abs_le.mpr ⟨by omega, by omega⟩, abs_le.mpr ⟨by omega, by omega⟩⟩

/-- C10 at a concrete input: a 300 by 201 dialog in the 800 by 600 window. -/
theorem C10_dialog_position_centres_witness :
    framedWindow.GetDialogPosition ⟨300, 201⟩ = ⟨250, 200⟩ :=
  (C10_dialog_position_centres framedWindow ⟨300, 201⟩ (by decide) (by decide) (by decide)
    (by decide) (by decide) (by decide) (by decide) (by decide)).1

end apps
